import Mathlib

/-!
Verification development for the shaggy-dog web application.

The development shallowly embeds the transformation pipeline of the
repository: the remote vision/generation client wrappers in
`app/services/openai_service.py` (`identify_dog_breed`,
`generate_dog_image`, `generate_transition_image`,
`generate_dog_transformation`), the background job
`run_transformation` and the `progress` endpoint in
`app/routes/main.py`, and the upload helpers `validate_image` and
`process_image_for_storage` in `app/utils/helpers.py`.

Modelling conventions:

* Image byte blobs are `List Nat`.
* The external AI provider is a deterministic strategy `Oracle`: one
  function per request shape (classify, describe, generate).  Each
  returns `Except String _`; an `Except.error` value stands for any
  exception raised by the underlying call (network failure, non-2xx
  response, missing choices).  The chat endpoints return
  `Option String` on success: `none` stands for a null
  `message.content` (on which the Python code raises an
  AttributeError when calling `.strip()`), `some s` for a text
  response `s`.
* Python `str.strip()` is modelled by `pyStrip`, implemented with
  structural recursion so that the kernel can evaluate it.
* The float literals `0.33`, `0.66` and `0.5` of the source are
  modelled as the rational numbers `level033`, `level066`,
  `levelHalf`, given in reduced form so that comparisons reduce in
  the kernel; theorems `level033_eq` etc. relate them to the
  corresponding scientific literals.
* Each embedded service function returns, besides its result, the
  ordered list of remote calls it performs, so that trace properties
  (ordering of calls, content of prompts) can be stated.
* `run_transformation` returns a `RunOutcome`: the ordered list of
  progress snapshots written to the tracker during the run (starting
  with the initial starting snapshot written by the process route
  just before the background thread is spawned), the remote call
  trace, and the database record committed by the run (if any).
-/

namespace ShaggyDog

/-- Image blobs are modelled as lists of bytes. -/
abbrev Bytes := List Nat

/-- Model of Python str.strip usable by kernel evaluation: drop
whitespace from the front, then from the back. -/
def pyStrip (s : String) : String :=
  ⟨((s.data.dropWhile Char.isWhitespace).reverse.dropWhile Char.isWhitespace).reverse⟩

/-- Boolean test that `pat` is a (character) prefix of `l`. -/
def startsWithChars : List Char → List Char → Bool
  | [], _ => true
  | _ :: _, [] => false
  | p :: ps, c :: cs => p == c && startsWithChars ps cs

/-- Boolean test that `pat` occurs as a contiguous run inside `l`. -/
def occursIn (pat : List Char) : List Char → Bool
  | [] => pat.isEmpty
  | c :: cs => startsWithChars pat (c :: cs) || occursIn pat cs

/-- String `s` contains `pat` as a contiguous substring. -/
def strContains (s pat : String) : Bool := occursIn pat.data s.data

/-- Rational value of the float literal 0.33 used for the first
transition, in reduced form so the kernel can evaluate comparisons. -/
def level033 : ℚ := ⟨33, 100, by norm_num, by norm_num⟩

/-- Rational value of the float literal 0.66 used for the second
transition, in reduced form. -/
def level066 : ℚ := ⟨33, 50, by norm_num, by norm_num⟩

/-- Rational value of the float literal 0.5 against which
transition levels are compared, in reduced form. -/
def levelHalf : ℚ := ⟨1, 2, by norm_num, by norm_num⟩

theorem level033_eq : level033 = 0.33 := by
  rw [level033, Rat.mk'_eq_divInt, Rat.divInt_eq_div]; norm_num

theorem level066_eq : level066 = 0.66 := by
  rw [level066, Rat.mk'_eq_divInt, Rat.divInt_eq_div]; norm_num

theorem levelHalf_eq : levelHalf = 0.5 := by
  rw [levelHalf, Rat.mk'_eq_divInt, Rat.divInt_eq_div]; norm_num

/-- One remote request issued by the pipeline, with its payload. -/
inductive RemoteCall where
  | classify (image : Bytes)
  | describe (image : Bytes)
  | generate (prompt : String)
deriving DecidableEq

/-- Test for an image-generation call. -/
def RemoteCall.isGenerate : RemoteCall → Bool
  | .generate _ => true
  | _ => false

/-- Test for a describe call. -/
def RemoteCall.isDescribe : RemoteCall → Bool
  | .describe _ => true
  | _ => false

/-- Deterministic strategy of the external AI provider.  The chat
endpoints return `none` for a null message content; `Except.error`
models any raised exception (network failure, non-2xx response,
malformed response object).  `generate` covers both the generation
request and the download of the returned image URL. -/
structure Oracle where
  classify : Bytes → Except String (Option String)
  describe : Bytes → Except String (Option String)
  generate : String → Except String Bytes

/-- Message of the AttributeError raised by `None.strip()` when the
response content is null. -/
def noneContentError : String := "NoneType object has no attribute strip"

/-- Embedding of `identify_dog_breed` (openai_service.py).  Sends the
image to the classifier and returns the stripped text content;
every failure is wrapped in the message prefix used by the source. -/
def identify_dog_breed (o : Oracle) (img : Bytes) :
    List RemoteCall × Except String String :=
  ([RemoteCall.classify img],
    match o.classify img with
    | Except.error e => Except.error ("Failed to identify dog breed: " ++ e)
    | Except.ok none => Except.error ("Failed to identify dog breed: " ++ noneContentError)
    | Except.ok (some c) => Except.ok (pyStrip c))

/-- Prompt built by `generate_dog_image` from the breed and the
transition-stage wording. -/
def dogImagePrompt (breed stage : String) : String :=
  "A photorealistic portrait of a " ++ breed ++ " dog, " ++ stage ++
    ". Studio lighting, high detail, professional photography, " ++
    "centered composition, neutral background."

/-- Embedding of `generate_dog_image` (openai_service.py). -/
def generate_dog_image (o : Oracle) (breed stage : String) :
    List RemoteCall × Except String Bytes :=
  ([RemoteCall.generate (dogImagePrompt breed stage)],
    match o.generate (dogImagePrompt breed stage) with
    | Except.error e => Except.error ("Failed to generate dog image: " ++ e)
    | Except.ok b => Except.ok b)

/-- Transformation wording chosen by `generate_transition_image` from
the transition level: below one half the prompt keeps the face mostly
human with subtle breed features beginning to emerge, otherwise it is
mostly the breed. -/
def transformationDesc (breed desc : String) (level : ℚ) : String :=
  if level < levelHalf then
    "a portrait that is mostly human but with " ++ "subtle" ++ " " ++ breed ++
      " dog features " ++ "beginning to emerge" ++
      ". The face is primarily human-like with hints of dog characteristics. Based on: " ++ desc
  else
    "a portrait that is " ++ ("mostly " ++ breed ++ " dog") ++
      " but retains some human characteristics. The face is primarily " ++
      "dog-like but maintains hints of the original human features. Based on: " ++ desc

/-- Full prompt built by `generate_transition_image`. -/
def transitionPrompt (breed desc : String) (level : ℚ) : String :=
  "A photorealistic portrait showing " ++ transformationDesc breed desc level ++
    ". Studio lighting, high detail, professional photography, " ++
    "centered composition, neutral background. The transformation should look natural and seamless."

/-- Embedding of `generate_transition_image` (openai_service.py).
The function first asks the vision endpoint for a description of the
original photo, then generates an image from a prompt combining the
breed, the stripped description and the level wording. -/
def generate_transition_image (o : Oracle) (orig : Bytes) (breed : String)
    (level : ℚ) : List RemoteCall × Except String Bytes :=
  match o.describe orig with
  | Except.error e =>
      ([RemoteCall.describe orig],
        Except.error ("Failed to generate transition image: " ++ e))
  | Except.ok none =>
      ([RemoteCall.describe orig],
        Except.error ("Failed to generate transition image: " ++ noneContentError))
  | Except.ok (some d) =>
      ([RemoteCall.describe orig,
        RemoteCall.generate (transitionPrompt breed (pyStrip d) level)],
        match o.generate (transitionPrompt breed (pyStrip d) level) with
        | Except.error e => Except.error ("Failed to generate transition image: " ++ e)
        | Except.ok b => Except.ok b)

/-- Fixed wording of the final-image stage passed by the pipeline to
`generate_dog_image`. -/
def finalStage : String := "facing forward, friendly expression, full portrait"

/-- Result bundle of a successful pipeline run. -/
structure TransformationResult where
  breed : String
  transition_1 : Bytes
  transition_2 : Bytes
  final_dog : Bytes
deriving DecidableEq

/-- Output of the pipeline: progress-callback events in order, remote
calls in order, and the result or the raised error. -/
structure PipeOut where
  progressEvents : List (Nat × String)
  calls : List RemoteCall
  result : Except String TransformationResult

/-- Embedding of `generate_dog_transformation` (openai_service.py):
classify, two transitions, final image, with the fixed progress
percentages reported before each stage; any stage failure is wrapped
in the outer pipeline error message. -/
def generate_dog_transformation (o : Oracle) (img : Bytes) : PipeOut :=
  let p1 : Nat × String := (10, "Identifying dog breed...")
  match identify_dog_breed o img with
  | (c1, Except.error e) =>
      ⟨[p1], c1, Except.error ("Dog transformation failed: " ++ e)⟩
  | (c1, Except.ok breed) =>
    let p2 : Nat × String := (20, "Generating first transition to " ++ breed ++ "...")
    match generate_transition_image o img breed level033 with
    | (c2, Except.error e) =>
        ⟨[p1, p2], c1 ++ c2, Except.error ("Dog transformation failed: " ++ e)⟩
    | (c2, Except.ok t1) =>
      let p3 : Nat × String := (40, "Generating second transition to " ++ breed ++ "...")
      match generate_transition_image o img breed level066 with
      | (c3, Except.error e) =>
          ⟨[p1, p2, p3], c1 ++ c2 ++ c3,
            Except.error ("Dog transformation failed: " ++ e)⟩
      | (c3, Except.ok t2) =>
        let p4 : Nat × String := (60, "Generating final " ++ breed ++ " image...")
        match generate_dog_image o breed finalStage with
        | (c4, Except.error e) =>
            ⟨[p1, p2, p3, p4], c1 ++ c2 ++ c3 ++ c4,
              Except.error ("Dog transformation failed: " ++ e)⟩
        | (c4, Except.ok fd) =>
            ⟨[p1, p2, p3, p4, (80, "Almost done...")], c1 ++ c2 ++ c3 ++ c4,
              Except.ok ⟨breed, t1, t2, fd⟩⟩

/-- Progress snapshot stored in the in-memory tracker, one per user. -/
structure ProgressSnapshot where
  status : String
  progress : Nat
  message : String
  transformation_id : Option Nat
deriving DecidableEq

/-- Snapshot written by the process route before it spawns the
background thread. -/
def startingSnapshot : ProgressSnapshot :=
  ⟨"starting", 0, "Initializing transformation...", none⟩

/-- Snapshot written by the `update_progress` callback of
`run_transformation`. -/
def update_progress (p : Nat) (m : String) : ProgressSnapshot :=
  ⟨"processing", p, m, none⟩

/-- Snapshot written by the exception handler of `run_transformation`. -/
def errorSnapshot (e : String) : ProgressSnapshot :=
  ⟨"error", 0, "Error: " ++ e, none⟩

/-- Persisted `DogTransformation` database record (models.py). -/
structure DogTransformation where
  user_id : Nat
  original_image : Bytes
  dog_breed : String
  transition_image_1 : Bytes
  transition_image_2 : Bytes
  final_dog_image : Bytes
deriving DecidableEq

/-- Environment of one background run: the remote strategy, whether
the user row exists, and the outcome of the database commit (the new
record id on success, the raised error otherwise). -/
structure Env where
  oracle : Oracle
  userExists : Bool
  commit : Except String Nat

/-- Observable outcome of one background run: the ordered snapshot
writes (starting with the initial starting snapshot), the remote call
trace, and the committed record, if any. -/
structure RunOutcome where
  writes : List ProgressSnapshot
  calls : List RemoteCall
  persisted : Option DogTransformation
deriving DecidableEq

/-- Embedding of `run_transformation` (main.py) together with the
starting snapshot written by the process route.  On success the
pipeline bundle is committed as a record and a complete snapshot with
the record id is written; any exception (missing user, pipeline
failure, commit failure) ends the run with an error snapshot whose
percent is zero, and nothing is persisted. -/
def run_transformation (env : Env) (uid : Nat) (img : Bytes) : RunOutcome :=
  if env.userExists then
    let po := generate_dog_transformation env.oracle img
    let pre := startingSnapshot :: update_progress 5 "Starting transformation..." ::
      po.progressEvents.map (fun e => update_progress e.1 e.2)
    match po.result with
    | Except.error e => ⟨pre ++ [errorSnapshot e], po.calls, none⟩
    | Except.ok r =>
      match env.commit with
      | Except.error e =>
          ⟨pre ++ [update_progress 85 "Saving your transformation...", errorSnapshot e],
            po.calls, none⟩
      | Except.ok tid =>
          ⟨pre ++ [update_progress 85 "Saving your transformation...",
                   ⟨"complete", 100, "Transformation complete!", some tid⟩],
            po.calls,
            some ⟨uid, img, r.breed, r.transition_1, r.transition_2, r.final_dog⟩⟩
  else
    ⟨[startingSnapshot,
      errorSnapshot ("User with ID " ++ toString uid ++ " not found in database")],
      [], none⟩

/-- In-memory progress tracker: an association list from user id to
the latest snapshot; a write prepends and shadows older entries. -/
abbrev Tracker := List (Nat × ProgressSnapshot)

/-- Default snapshot returned by the progress endpoint when no entry
exists for the user. -/
def defaultSnapshot : ProgressSnapshot :=
  ⟨"unknown", 0, "No transformation in progress", none⟩

/-- Embedding of the `progress` endpoint (main.py): a read of the
tracker with a default, returning the response together with the
tracker the route leaves behind (the dictionary read does not write). -/
def progress_route (tracker : Tracker) (uid : Nat) : ProgressSnapshot × Tracker :=
  (((tracker.lookup uid).getD defaultSnapshot), tracker)

/-- Decoded image metadata as exposed by the imaging collaborator. -/
structure PILImage where
  width : Nat
  height : Nat
  mode : String
deriving DecidableEq

/-- Uploaded file: its byte size and its decoded image metadata
(`none` when the bytes are not decodable image content). -/
structure UploadFile where
  size : Nat
  decoded : Option PILImage
deriving DecidableEq

/-- Embedding of `validate_image` (helpers.py): missing file, then
size, then decodability, then dimension bounds, in source order. -/
def validate_image (file : Option UploadFile) : Bool × String :=
  match file with
  | none => (false, "No file provided")
  | some f =>
    if f.size > 16 * 1024 * 1024 then
      (false, "File size must be less than 16MB")
    else
      match f.decoded with
      | none => (false, "Invalid image file: cannot identify image file")
      | some img =>
        if img.width < 256 ∨ img.height < 256 then
          (false, "Image must be at least 256x256 pixels")
        else if img.width > 4096 ∨ img.height > 4096 then
          (false, "Image must be less than 4096x4096 pixels")
        else
          (true, "")

/-- Stored image metadata after re-encoding. -/
structure StoredImage where
  width : Nat
  height : Nat
  mode : String
  format : String
  quality : Nat
deriving DecidableEq

/-- Model of the imaging collaborator call `Image.thumbnail((1024,
1024))`: no change when the image already fits, otherwise scale down
preserving aspect ratio so that both dimensions fit in the box. -/
def thumbnailDims (w h : Nat) : Nat × Nat :=
  if w ≤ 1024 ∧ h ≤ 1024 then (w, h)
  else if w ≤ h then (max 1 (1024 * w / h), 1024)
  else (1024, max 1 (1024 * h / w))

/-- Embedding of `process_image_for_storage` (helpers.py) at the
image-metadata level: alpha and palette modes are flattened to RGB,
oversized images are downscaled to fit 1024 by 1024, and the result
is saved as JPEG at quality 85. -/
def process_image_for_storage (img : PILImage) : StoredImage :=
  let m := if img.mode = "RGBA" ∨ img.mode = "LA" ∨ img.mode = "P" then "RGB" else img.mode
  let d := if img.width > 1024 ∨ img.height > 1024 then
      thumbnailDims img.width img.height
    else (img.width, img.height)
  ⟨d.1, d.2, m, "JPEG", 85⟩

/-- Combined effect of the upload and process routes on the tracker:
a valid upload writes the starting snapshot for the user and starts
the background task, a rejected upload changes nothing and starts
nothing.  The boolean reports whether a background task was started. -/
def upload_request (file : Option UploadFile) (tracker : Tracker) (uid : Nat) :
    Tracker × Bool :=
  if (validate_image file).1 then ((uid, startingSnapshot) :: tracker, true)
  else (tracker, false)

/-- Relation between consecutive tracker writes: the percent never
decreases, except that an error write resets it to zero. -/
def percentStep (a b : ProgressSnapshot) : Prop :=
  a.progress ≤ b.progress ∨ (b.status = "error" ∧ b.progress = 0)

/-- Any write may be followed by an error write. -/
theorem percentStep_error (a : ProgressSnapshot) (e : String) :
    percentStep a (errorSnapshot e) :=
  Or.inr ⟨rfl, rfl⟩

/-- Trace and result of a fully successful pipeline run, as a function
of the classifier text `c`, the description text `d` and the
generation strategy `g`. -/
theorem pipe_success {o : Oracle} {img : Bytes} {c d : String} {g : String → Bytes}
    (hc : o.classify img = Except.ok (some c))
    (hd : o.describe img = Except.ok (some d))
    (hg : ∀ p, o.generate p = Except.ok (g p)) :
    generate_dog_transformation o img =
      ⟨[(10, "Identifying dog breed..."),
        (20, "Generating first transition to " ++ pyStrip c ++ "..."),
        (40, "Generating second transition to " ++ pyStrip c ++ "..."),
        (60, "Generating final " ++ pyStrip c ++ " image..."),
        (80, "Almost done...")],
       [RemoteCall.classify img, RemoteCall.describe img,
        RemoteCall.generate (transitionPrompt (pyStrip c) (pyStrip d) level033),
        RemoteCall.describe img,
        RemoteCall.generate (transitionPrompt (pyStrip c) (pyStrip d) level066),
        RemoteCall.generate (dogImagePrompt (pyStrip c) finalStage)],
       Except.ok ⟨pyStrip c,
         g (transitionPrompt (pyStrip c) (pyStrip d) level033),
         g (transitionPrompt (pyStrip c) (pyStrip d) level066),
         g (dogImagePrompt (pyStrip c) finalStage)⟩⟩ := by
  simp [generate_dog_transformation, identify_dog_breed, generate_transition_image,
    generate_dog_image, hc, hd, hg]

/-- Outcome of a fully successful background run. -/
theorem run_success {env : Env} {uid : Nat} {img : Bytes} {c d : String}
    {g : String → Bytes} {tid : Nat}
    (hu : env.userExists = true)
    (hc : env.oracle.classify img = Except.ok (some c))
    (hd : env.oracle.describe img = Except.ok (some d))
    (hg : ∀ p, env.oracle.generate p = Except.ok (g p))
    (hcm : env.commit = Except.ok tid) :
    run_transformation env uid img =
      ⟨[startingSnapshot,
        update_progress 5 "Starting transformation...",
        update_progress 10 "Identifying dog breed...",
        update_progress 20 ("Generating first transition to " ++ pyStrip c ++ "..."),
        update_progress 40 ("Generating second transition to " ++ pyStrip c ++ "..."),
        update_progress 60 ("Generating final " ++ pyStrip c ++ " image..."),
        update_progress 80 "Almost done...",
        update_progress 85 "Saving your transformation...",
        ⟨"complete", 100, "Transformation complete!", some tid⟩],
       [RemoteCall.classify img, RemoteCall.describe img,
        RemoteCall.generate (transitionPrompt (pyStrip c) (pyStrip d) level033),
        RemoteCall.describe img,
        RemoteCall.generate (transitionPrompt (pyStrip c) (pyStrip d) level066),
        RemoteCall.generate (dogImagePrompt (pyStrip c) finalStage)],
       some ⟨uid, img, pyStrip c,
         g (transitionPrompt (pyStrip c) (pyStrip d) level033),
         g (transitionPrompt (pyStrip c) (pyStrip d) level066),
         g (dogImagePrompt (pyStrip c) finalStage)⟩⟩ := by
  simp [run_transformation, hu, pipe_success hc hd hg, hcm]

/-- Claim C1: within a single background run, the sequence of percent
values written to the progress tracker, from the initial starting
snapshot through the terminal snapshot, is monotonically
non-decreasing, except that a write with status error carries
percent zero. -/
theorem C1_percent_monotone_except_error (env : Env) (uid : Nat) (img : Bytes) :
    List.Chain' percentStep (run_transformation env uid img).writes := by
  cases hu : env.userExists with
  | false =>
    simp [run_transformation, hu, List.chain'_cons, percentStep_error]
  | true =>
    rcases hc : env.oracle.classify img with e | (_ | c)
    · simp [run_transformation, hu, generate_dog_transformation, identify_dog_breed,
        hc, List.chain'_cons, percentStep, update_progress, startingSnapshot, errorSnapshot]
    · simp [run_transformation, hu, generate_dog_transformation, identify_dog_breed,
        hc, List.chain'_cons, percentStep, update_progress, startingSnapshot, errorSnapshot]
    · rcases hd : env.oracle.describe img with e | (_ | d)
      · simp [run_transformation, hu, generate_dog_transformation, identify_dog_breed,
          generate_transition_image, hc, hd, List.chain'_cons, percentStep,
          update_progress, startingSnapshot, errorSnapshot]
      · simp [run_transformation, hu, generate_dog_transformation, identify_dog_breed,
          generate_transition_image, hc, hd, List.chain'_cons, percentStep,
          update_progress, startingSnapshot, errorSnapshot]
      · rcases hg1 : env.oracle.generate (transitionPrompt (pyStrip c) (pyStrip d) level033)
          with e | b1
        · simp [run_transformation, hu, generate_dog_transformation, identify_dog_breed,
            generate_transition_image, hc, hd, hg1, List.chain'_cons, percentStep,
            update_progress, startingSnapshot, errorSnapshot]
        · rcases hg2 : env.oracle.generate (transitionPrompt (pyStrip c) (pyStrip d) level066)
            with e | b2
          · simp [run_transformation, hu, generate_dog_transformation, identify_dog_breed,
              generate_transition_image, hc, hd, hg1, hg2, List.chain'_cons, percentStep,
              update_progress, startingSnapshot, errorSnapshot]
          · rcases hg3 : env.oracle.generate (dogImagePrompt (pyStrip c) finalStage)
              with e | b3
            · simp [run_transformation, hu, generate_dog_transformation, identify_dog_breed,
                generate_transition_image, generate_dog_image, hc, hd, hg1, hg2,
                hg3, List.chain'_cons, percentStep, update_progress, startingSnapshot,
                errorSnapshot]
            · rcases hcm : env.commit with e | tid
              · simp [run_transformation, hu, generate_dog_transformation, identify_dog_breed,
                  generate_transition_image, generate_dog_image, hc, hd, hg1, hg2,
                  hg3, hcm, List.chain'_cons, percentStep, update_progress, startingSnapshot,
                  errorSnapshot]
              · simp [run_transformation, hu, generate_dog_transformation, identify_dog_breed,
                  generate_transition_image, generate_dog_image, hc, hd, hg1, hg2,
                  hg3, hcm, List.chain'_cons, percentStep, update_progress, startingSnapshot,
                  errorSnapshot]

/-- Last element of a cons followed by an append ending in one
element. -/
theorem getLast?_cons_concat {α : Type} (x : α) (l : List α) (a : α) :
    (x :: (l ++ [a])).getLast? = some a := by
  rw [← List.cons_append, List.getLast?_append_of_ne_nil] <;> simp

/-- Last element of a cons followed by an append ending in two
elements. -/
theorem getLast?_cons_concat2 {α : Type} (x b : α) (l : List α) (a : α) :
    (x :: (l ++ [b, a])).getLast? = some a := by
  rw [← List.cons_append, List.getLast?_append_of_ne_nil] <;> simp

/-- Some pipeline stage of the run raises: either the generation
pipeline itself fails (classification, a transition, the final
image), or the pipeline succeeds and the database commit fails. -/
def stageRaises (env : Env) (img : Bytes) : Prop :=
  (∃ e, (generate_dog_transformation env.oracle img).result = Except.error e) ∨
    ((∃ r, (generate_dog_transformation env.oracle img).result = Except.ok r) ∧
      ∃ e, env.commit = Except.error e)

/-- Claim C2: if any pipeline stage raises (classification, either
transition, final generation, or persistence), nothing is persisted,
no transformation id is ever exposed through the tracker, and the
final snapshot is exactly an error snapshot with percent zero and a
message extending the Error: prefix. -/
theorem C2_stage_failure_all_or_nothing (env : Env) (uid : Nat) (img : Bytes)
    (hu : env.userExists = true) (hs : stageRaises env img) :
    (run_transformation env uid img).persisted = none ∧
    (∀ s ∈ (run_transformation env uid img).writes, s.transformation_id = none) ∧
    ∃ e, (run_transformation env uid img).writes.getLast? =
      some ⟨"error", 0, "Error: " ++ e, none⟩ := by
  rcases hp : (generate_dog_transformation env.oracle img).result with e | r
  · refine ⟨by simp [run_transformation, hu, hp], ?_, e, ?_⟩
    · intro s hsm
      simp [run_transformation, hu, hp, startingSnapshot, update_progress,
        errorSnapshot] at hsm
      rcases hsm with rfl | rfl | ⟨a, b, -, rfl⟩ | rfl <;> rfl
    · simp [run_transformation, hu, hp, errorSnapshot, getLast?_cons_concat]
  · rcases hs with ⟨e, he⟩ | ⟨-, e, hcm⟩
    · rw [hp] at he; exact absurd he (by simp)
    · refine ⟨by simp [run_transformation, hu, hp, hcm], ?_, e, ?_⟩
      · intro s hsm
        simp [run_transformation, hu, hp, hcm, startingSnapshot, update_progress,
          errorSnapshot] at hsm
        rcases hsm with rfl | rfl | ⟨a, b, -, rfl⟩ | rfl | rfl <;> rfl
      · simp [run_transformation, hu, hp, hcm, errorSnapshot, getLast?_cons_concat2]

/-- Oracle whose every remote call fails with a network error. -/
def failingOracle : Oracle :=
  ⟨fun _ => Except.error "network down",
   fun _ => Except.error "network down",
   fun _ => Except.error "network down"⟩

/-- Environment in which the classification call raises. -/
def envClassifyFails : Env := ⟨failingOracle, true, Except.ok 1⟩

/-- Witness for claim C2 at a concrete run whose classification call
raises a network error. -/
theorem C2_stage_failure_all_or_nothing_witness :
    (run_transformation envClassifyFails 1 [0]).persisted = none ∧
    (∀ s ∈ (run_transformation envClassifyFails 1 [0]).writes, s.transformation_id = none) ∧
    ∃ e, (run_transformation envClassifyFails 1 [0]).writes.getLast? =
      some ⟨"error", 0, "Error: " ++ e, none⟩ :=
  C2_stage_failure_all_or_nothing envClassifyFails 1 [0] rfl
    (Or.inl ⟨"Dog transformation failed: Failed to identify dog breed: network down", rfl⟩)

/-- Oracle of a fully successful run: the classifier answers Golden
Retriever, the describer answers a fixed description, and every
generation request succeeds with bytes determined by the prompt. -/
def okOracle : Oracle :=
  ⟨fun _ => Except.ok (some "Golden Retriever"),
   fun _ => Except.ok (some "a person with long hair"),
   fun p => Except.ok [p.length]⟩

/-- Environment of a fully successful run. -/
def envSuccess : Env := ⟨okOracle, true, Except.ok 7⟩

/-- Record persisted by the concrete successful run. -/
def successRecord : DogTransformation :=
  ⟨1, [0], pyStrip "Golden Retriever",
   [(transitionPrompt (pyStrip "Golden Retriever")
     (pyStrip "a person with long hair") level033).length],
   [(transitionPrompt (pyStrip "Golden Retriever")
     (pyStrip "a person with long hair") level066).length],
   [(dogImagePrompt (pyStrip "Golden Retriever") finalStage).length]⟩

/-- Outcome of the run in the concrete successful environment. -/
theorem envSuccess_run_eq :
    run_transformation envSuccess 1 [0] =
      ⟨[startingSnapshot,
        update_progress 5 "Starting transformation...",
        update_progress 10 "Identifying dog breed...",
        update_progress 20
          ("Generating first transition to " ++ pyStrip "Golden Retriever" ++ "..."),
        update_progress 40
          ("Generating second transition to " ++ pyStrip "Golden Retriever" ++ "..."),
        update_progress 60
          ("Generating final " ++ pyStrip "Golden Retriever" ++ " image..."),
        update_progress 80 "Almost done...",
        update_progress 85 "Saving your transformation...",
        ⟨"complete", 100, "Transformation complete!", some 7⟩],
       [RemoteCall.classify [0], RemoteCall.describe [0],
        RemoteCall.generate (transitionPrompt (pyStrip "Golden Retriever")
          (pyStrip "a person with long hair") level033),
        RemoteCall.describe [0],
        RemoteCall.generate (transitionPrompt (pyStrip "Golden Retriever")
          (pyStrip "a person with long hair") level066),
        RemoteCall.generate (dogImagePrompt (pyStrip "Golden Retriever") finalStage)],
       some successRecord⟩ :=
  @run_success envSuccess 1 [0] "Golden Retriever" "a person with long hair"
    (fun p => [p.length]) 7 rfl rfl rfl (fun _ => rfl) rfl

/-- Counterexample to claim C3 as stated: on a fully successful run
the percent values written to the tracker are 0, 5, 10, 20, 40, 60,
80, 85, 100 and not the claimed 10, 20, 40, 60, 80, 100 (the claimed
sequence omits the starting write, the 5 percent initialization write
and the 85 percent saving write). -/
theorem C3_counterexample :
    (run_transformation envSuccess 1 [0]).writes.map ProgressSnapshot.progress =
      [0, 5, 10, 20, 40, 60, 80, 85, 100] ∧
    (run_transformation envSuccess 1 [0]).writes.map ProgressSnapshot.progress ≠
      [10, 20, 40, 60, 80, 100] := by
  rw [envSuccess_run_eq]
  refine ⟨?_, ?_⟩ <;>
    simp [startingSnapshot, update_progress]

/-- Claim C3 (amended): on a fully successful run with a valid
upload, the percent values written to the tracker are exactly 0
(starting), 5, 10, 20, 40, 60, 80, 85 and then 100 with terminal
status complete; the persisted record carries the breed string
returned by the classify step, and exactly three generated image
blobs are stored (the two transitions and the final image, each the
response to one of the three generation calls). -/
theorem C3_success_progress_and_record {env : Env} {uid : Nat} {img : Bytes}
    {c d : String} {g : String → Bytes} {tid : Nat}
    (hu : env.userExists = true)
    (hc : env.oracle.classify img = Except.ok (some c))
    (hd : env.oracle.describe img = Except.ok (some d))
    (hg : ∀ p, env.oracle.generate p = Except.ok (g p))
    (hcm : env.commit = Except.ok tid) :
    (run_transformation env uid img).writes.map ProgressSnapshot.progress =
      [0, 5, 10, 20, 40, 60, 80, 85, 100] ∧
    (run_transformation env uid img).writes.getLast? =
      some ⟨"complete", 100, "Transformation complete!", some tid⟩ ∧
    ∃ rec, (run_transformation env uid img).persisted = some rec ∧
      (identify_dog_breed env.oracle img).2 = Except.ok rec.dog_breed ∧
      rec.dog_breed = pyStrip c ∧
      rec.transition_image_1 = g (transitionPrompt (pyStrip c) (pyStrip d) level033) ∧
      rec.transition_image_2 = g (transitionPrompt (pyStrip c) (pyStrip d) level066) ∧
      rec.final_dog_image = g (dogImagePrompt (pyStrip c) finalStage) ∧
      ((run_transformation env uid img).calls.countP RemoteCall.isGenerate) = 3 := by
  rw [run_success hu hc hd hg hcm]
  refine ⟨by simp [startingSnapshot, update_progress], by simp, ?_⟩
  refine ⟨_, rfl, by simp [identify_dog_breed, hc], rfl, rfl, rfl, ?_⟩
  simp [List.countP_cons, RemoteCall.isGenerate]

/-- Witness for the amended claim C3 at the concrete successful
environment. -/
theorem C3_success_progress_and_record_witness :
    (run_transformation envSuccess 1 [0]).writes.map ProgressSnapshot.progress =
      [0, 5, 10, 20, 40, 60, 80, 85, 100] ∧
    (run_transformation envSuccess 1 [0]).writes.getLast? =
      some ⟨"complete", 100, "Transformation complete!", some 7⟩ ∧
    ∃ rec, (run_transformation envSuccess 1 [0]).persisted = some rec ∧
      (identify_dog_breed envSuccess.oracle [0]).2 = Except.ok rec.dog_breed ∧
      rec.dog_breed = pyStrip "Golden Retriever" ∧
      rec.transition_image_1 =
        [(transitionPrompt (pyStrip "Golden Retriever")
          (pyStrip "a person with long hair") level033).length] ∧
      rec.transition_image_2 =
        [(transitionPrompt (pyStrip "Golden Retriever")
          (pyStrip "a person with long hair") level066).length] ∧
      rec.final_dog_image =
        [(dogImagePrompt (pyStrip "Golden Retriever") finalStage).length] ∧
      ((run_transformation envSuccess 1 [0]).calls.countP RemoteCall.isGenerate) = 3 :=
  C3_success_progress_and_record rfl rfl rfl (fun _ => rfl) rfl

/-- A prefix stays a prefix after extending the list on the right. -/
theorem startsWithChars_append {p l : List Char} (r : List Char)
    (h : startsWithChars p l = true) : startsWithChars p (l ++ r) = true := by
  induction p generalizing l with
  | nil => rfl
  | cons x xs ih =>
    cases l with
    | nil => simp [startsWithChars] at h
    | cons c cs =>
      simp [startsWithChars] at h ⊢
      exact ⟨h.1, ih h.2⟩

/-- Every list is a prefix of itself extended on the right. -/
theorem startsWithChars_self (p r : List Char) :
    startsWithChars p (p ++ r) = true := by
  induction p with
  | nil => rfl
  | cons x xs ih => simp [startsWithChars, ih]

/-- The empty pattern occurs in every list. -/
theorem occursIn_nil (l : List Char) : occursIn [] l = true := by
  cases l <;> simp [occursIn, startsWithChars]

/-- A prefix occurrence is an occurrence. -/
theorem occursIn_of_startsWithChars {p l : List Char}
    (h : startsWithChars p l = true) : occursIn p l = true := by
  cases l with
  | nil =>
    cases p with
    | nil => rfl
    | cons x xs => simp [startsWithChars] at h
  | cons c cs =>
    simp [occursIn]
    exact Or.inl h

/-- An occurrence in the right part of an append is an occurrence. -/
theorem occursIn_append_right {p r : List Char} (l : List Char)
    (h : occursIn p r = true) : occursIn p (l ++ r) = true := by
  induction l with
  | nil => simpa using h
  | cons c cs ih =>
    simp [occursIn]
    exact Or.inr (by simpa using ih)

/-- An occurrence in the left part of an append is an occurrence. -/
theorem occursIn_append_left {p l : List Char} (r : List Char)
    (h : occursIn p l = true) : occursIn p (l ++ r) = true := by
  induction l with
  | nil =>
    cases p with
    | nil => exact occursIn_nil r
    | cons x xs => simp [occursIn, List.isEmpty] at h
  | cons c cs ih =>
    simp [occursIn] at h ⊢
    rcases h with h | h
    · exact Or.inl (startsWithChars_append r h)
    · exact Or.inr (by simpa using ih h)

/-- The middle part of a triple append occurs in it. -/
theorem occursIn_mid (l p r : List Char) :
    occursIn p (l ++ (p ++ r)) = true :=
  occursIn_append_right l (occursIn_of_startsWithChars (startsWithChars_self p r))

/-- A string contains a pattern occurring in its left append part. -/
theorem strContains_left {s pat : String} (t : String)
    (h : strContains s pat = true) : strContains (s ++ t) pat = true := by
  simp only [strContains, String.data_append]
  exact occursIn_append_left t.data h

/-- A string contains a pattern occurring in its right append part. -/
theorem strContains_right {t pat : String} (s : String)
    (h : strContains t pat = true) : strContains (s ++ t) pat = true := by
  simp only [strContains, String.data_append]
  exact occursIn_append_right s.data h

/-- A string of the shape left ++ pat ++ right contains pat. -/
theorem strContains_mid (s pat t : String) :
    strContains (s ++ pat ++ t) pat = true := by
  simp only [strContains, String.data_append, List.append_assoc]
  exact occursIn_mid s.data pat.data t.data

/-- Every list is a prefix of itself. -/
theorem startsWithChars_refl (p : List Char) : startsWithChars p p = true := by
  simpa using startsWithChars_self p []

/-- Every string contains itself. -/
theorem strContains_refl (s : String) : strContains s s = true :=
  occursIn_of_startsWithChars (startsWithChars_refl s.data)

/-- The prompt of `generate_dog_image` contains the breed name. -/
theorem dogImagePrompt_contains_breed (breed stage : String) :
    strContains (dogImagePrompt breed stage) breed = true := by
  unfold dogImagePrompt
  exact strContains_left _ (strContains_left _ (strContains_left _
    (strContains_left _ (strContains_right _ (strContains_refl _)))))

/-- The transition prompt contains the breed name, at every level. -/
theorem transitionPrompt_contains_breed (breed desc : String) (level : ℚ) :
    strContains (transitionPrompt breed desc level) breed = true := by
  unfold transitionPrompt
  refine strContains_left _ (strContains_left _ (strContains_right _ ?_))
  unfold transformationDesc
  by_cases h : level < levelHalf
  · rw [if_pos h]
    exact strContains_left _ (strContains_left _ (strContains_left _
      (strContains_left _ (strContains_right _ (strContains_refl _)))))
  · rw [if_neg h]
    refine strContains_left _ (strContains_left _ (strContains_left _
      (strContains_right _ ?_)))
    exact strContains_left _ (strContains_right _ (strContains_refl _))

/-- Below one half, the transition prompt contains the word subtle. -/
theorem transitionPrompt_contains_subtle (breed desc : String) {level : ℚ}
    (h : level < levelHalf) :
    strContains (transitionPrompt breed desc level) "subtle" = true := by
  unfold transitionPrompt
  refine strContains_left _ (strContains_left _ (strContains_right _ ?_))
  unfold transformationDesc
  rw [if_pos h]
  exact strContains_left _ (strContains_left _ (strContains_left _
    (strContains_left _ (strContains_left _ (strContains_left _
      (strContains_right _ (strContains_refl _)))))))

/-- Below one half, the transition prompt contains the
beginning-to-emerge wording. -/
theorem transitionPrompt_contains_emerge (breed desc : String) {level : ℚ}
    (h : level < levelHalf) :
    strContains (transitionPrompt breed desc level) "beginning to emerge" = true := by
  unfold transitionPrompt
  refine strContains_left _ (strContains_left _ (strContains_right _ ?_))
  unfold transformationDesc
  rw [if_pos h]
  exact strContains_left _ (strContains_left _ (strContains_right _
    (strContains_refl _)))

/-- At or above one half, the transition prompt contains the wording
mostly breed dog. -/
theorem transitionPrompt_contains_mostly (breed desc : String) {level : ℚ}
    (h : ¬ level < levelHalf) :
    strContains (transitionPrompt breed desc level)
      ("mostly " ++ breed ++ " dog") = true := by
  unfold transitionPrompt
  refine strContains_left _ (strContains_left _ (strContains_right _ ?_))
  unfold transformationDesc
  rw [if_neg h]
  exact strContains_left _ (strContains_left _ (strContains_left _
    (strContains_right _ (strContains_refl _))))

set_option maxRecDepth 40000 in
/-- Counterexample to claim C4 as stated: the first transition
prompt, at level 0.33 below one half, does not contain the word
emerging (the source wording is beginning to emerge); the subtle
wording is present. -/
theorem C4_counterexample :
    strContains (transitionPrompt "Golden Retriever" "a person" level033) "emerging" = false ∧
    strContains (transitionPrompt "Golden Retriever" "a person" level033) "subtle" = true := by
  constructor <;> decide

/-- Claim C4 (amended): in every run with a fixed breed
classification and person description, each generation call prompt
contains the breed name; and a transition prompt contains the subtle
and beginning-to-emerge wording when the transition level is below
one half, and the mostly-breed wording when it is at least one
half. -/
theorem C4_generation_prompts {o : Oracle} {img : Bytes} {c d : String}
    {g : String → Bytes}
    (hc : o.classify img = Except.ok (some c))
    (hd : o.describe img = Except.ok (some d))
    (hg : ∀ p, o.generate p = Except.ok (g p)) (level : ℚ) :
    (∀ p, RemoteCall.generate p ∈ (generate_dog_transformation o img).calls →
      strContains p (pyStrip c) = true) ∧
    (level < levelHalf →
      strContains (transitionPrompt (pyStrip c) (pyStrip d) level) "subtle" = true ∧
      strContains (transitionPrompt (pyStrip c) (pyStrip d) level) "beginning to emerge" = true) ∧
    (¬ level < levelHalf →
      strContains (transitionPrompt (pyStrip c) (pyStrip d) level)
        ("mostly " ++ pyStrip c ++ " dog") = true) := by
  refine ⟨?_, fun h => ⟨transitionPrompt_contains_subtle _ _ h,
      transitionPrompt_contains_emerge _ _ h⟩,
    fun h => transitionPrompt_contains_mostly _ _ h⟩
  intro p hp
  rw [pipe_success hc hd hg] at hp
  simp at hp
  rcases hp with rfl | rfl | rfl
  · exact transitionPrompt_contains_breed _ _ _
  · exact transitionPrompt_contains_breed _ _ _
  · exact dogImagePrompt_contains_breed _ _

/-- Witness for the amended claim C4 at the concrete successful
environment, at both levels used by the pipeline. -/
theorem C4_generation_prompts_witness :
    ((∀ p, RemoteCall.generate p ∈ (generate_dog_transformation okOracle [0]).calls →
      strContains p (pyStrip "Golden Retriever") = true) ∧
    (level033 < levelHalf →
      strContains (transitionPrompt (pyStrip "Golden Retriever")
        (pyStrip "a person with long hair") level033) "subtle" = true ∧
      strContains (transitionPrompt (pyStrip "Golden Retriever")
        (pyStrip "a person with long hair") level033) "beginning to emerge" = true) ∧
    (¬ level033 < levelHalf →
      strContains (transitionPrompt (pyStrip "Golden Retriever")
        (pyStrip "a person with long hair") level033)
        ("mostly " ++ pyStrip "Golden Retriever" ++ " dog") = true)) ∧
    (¬ level066 < levelHalf →
      strContains (transitionPrompt (pyStrip "Golden Retriever")
        (pyStrip "a person with long hair") level066)
        ("mostly " ++ pyStrip "Golden Retriever" ++ " dog") = true) :=
  ⟨C4_generation_prompts rfl rfl (fun _ => rfl) level033,
   (@C4_generation_prompts okOracle [0] "Golden Retriever" "a person with long hair"
     (fun p => [p.length]) rfl rfl (fun _ => rfl) level066).2.2⟩

/-- Counterexample to claim C5 as stated: on a fully successful run
the describe request for the original photo is issued twice, once
inside each transition-image generation, not once up front; the
second describe call comes after the first generation call. -/
theorem C5_counterexample :
    ((run_transformation envSuccess 1 [0]).calls.countP RemoteCall.isDescribe) = 2 ∧
    ((run_transformation envSuccess 1 [0]).calls.countP RemoteCall.isDescribe) ≠ 1 := by
  rw [envSuccess_run_eq]
  refine ⟨?_, ?_⟩ <;> simp [List.countP_cons, RemoteCall.isDescribe]

/-- Claim C5 (amended): the textual description of the original photo
is not obtained once up front; it is requested separately inside each
transition-image generation call, on the same original image bytes,
with each describe call immediately preceding its generation call, so
the full remote trace of a successful pipeline run is classify,
describe, generate, describe, generate, generate. -/
theorem C5_description_per_transition {o : Oracle} {img : Bytes} {c d : String}
    {g : String → Bytes}
    (hc : o.classify img = Except.ok (some c))
    (hd : o.describe img = Except.ok (some d))
    (hg : ∀ p, o.generate p = Except.ok (g p)) :
    (generate_dog_transformation o img).calls =
      [RemoteCall.classify img,
       RemoteCall.describe img,
       RemoteCall.generate (transitionPrompt (pyStrip c) (pyStrip d) level033),
       RemoteCall.describe img,
       RemoteCall.generate (transitionPrompt (pyStrip c) (pyStrip d) level066),
       RemoteCall.generate (dogImagePrompt (pyStrip c) finalStage)] := by
  rw [pipe_success hc hd hg]

/-- Witness for the amended claim C5 at the concrete successful
environment. -/
theorem C5_description_per_transition_witness :
    (generate_dog_transformation okOracle [0]).calls =
      [RemoteCall.classify [0],
       RemoteCall.describe [0],
       RemoteCall.generate (transitionPrompt (pyStrip "Golden Retriever")
         (pyStrip "a person with long hair") level033),
       RemoteCall.describe [0],
       RemoteCall.generate (transitionPrompt (pyStrip "Golden Retriever")
         (pyStrip "a person with long hair") level066),
       RemoteCall.generate (dogImagePrompt (pyStrip "Golden Retriever") finalStage)] :=
  @C5_description_per_transition okOracle [0] "Golden Retriever" "a person with long hair"
    (fun p => [p.length]) rfl rfl (fun _ => rfl)

/-- Claim C6: for any two runs whose original images yield the same
breed label, the final full-breed generation request is identical:
its prompt is the function `dogImagePrompt` of the breed name and the
fixed forward-facing friendly directive only, independent of the
original photo bytes and of the person description. -/
theorem C6_final_prompt_breed_only {o₁ o₂ : Oracle} {img₁ img₂ : Bytes}
    {c₁ c₂ d₁ d₂ : String} {g₁ g₂ : String → Bytes}
    (hc₁ : o₁.classify img₁ = Except.ok (some c₁))
    (hd₁ : o₁.describe img₁ = Except.ok (some d₁))
    (hg₁ : ∀ p, o₁.generate p = Except.ok (g₁ p))
    (hc₂ : o₂.classify img₂ = Except.ok (some c₂))
    (hd₂ : o₂.describe img₂ = Except.ok (some d₂))
    (hg₂ : ∀ p, o₂.generate p = Except.ok (g₂ p))
    (hbreed : pyStrip c₁ = pyStrip c₂) :
    (generate_dog_transformation o₁ img₁).calls.getLast? =
      some (RemoteCall.generate (dogImagePrompt (pyStrip c₁) finalStage)) ∧
    (generate_dog_transformation o₂ img₂).calls.getLast? =
      some (RemoteCall.generate (dogImagePrompt (pyStrip c₁) finalStage)) := by
  rw [pipe_success hc₁ hd₁ hg₁, pipe_success hc₂ hd₂ hg₂, hbreed]
  exact ⟨rfl, rfl⟩

/-- Oracle of a second successful run: a different image description
and different generated bytes, but the same breed label. -/
def okOracle2 : Oracle :=
  ⟨fun _ => Except.ok (some "Golden Retriever"),
   fun _ => Except.ok (some "a person with a beard"),
   fun p => Except.ok [p.length, 1]⟩

/-- Witness for claim C6: two concrete runs on different images with
different descriptions but the same breed label issue the same final
generation request. -/
theorem C6_final_prompt_breed_only_witness :
    (generate_dog_transformation okOracle [0]).calls.getLast? =
      some (RemoteCall.generate (dogImagePrompt (pyStrip "Golden Retriever") finalStage)) ∧
    (generate_dog_transformation okOracle2 [1, 2]).calls.getLast? =
      some (RemoteCall.generate (dogImagePrompt (pyStrip "Golden Retriever") finalStage)) :=
  @C6_final_prompt_breed_only okOracle okOracle2 [0] [1, 2]
    "Golden Retriever" "Golden Retriever" "a person with long hair" "a person with a beard"
    (fun p => [p.length]) (fun p => [p.length, 1])
    rfl rfl (fun _ => rfl) rfl rfl (fun _ => rfl) rfl

/-- Oracle whose classifier replies with an empty text content. -/
def emptyContentOracle : Oracle :=
  ⟨fun _ => Except.ok (some ""),
   fun _ => Except.ok (some ""),
   fun _ => Except.ok []⟩

/-- Counterexample to claim C7 as stated: when the remote classifier
returns an empty text response, `identify_dog_breed` does not raise;
it returns the empty string. -/
theorem C7_counterexample :
    (identify_dog_breed emptyContentOracle [0]).2 = Except.ok "" ∧
    ∀ e, (identify_dog_breed emptyContentOracle [0]).2 ≠ Except.error e := by
  refine ⟨rfl, ?_⟩
  intro e h
  rw [show (identify_dog_breed emptyContentOracle [0]).2 = Except.ok "" from rfl] at h
  exact Except.noConfusion h

/-- Claim C7 (amended): `identify_dog_breed` returns the text of the
remote classifier response stripped of surrounding whitespace, and
raises an error when the remote call fails (network failure, non-2xx
response) or when the response carries no text content; an empty text
response is returned as the empty string, not raised. -/
theorem C7_classify_contract (o : Oracle) (img : Bytes) :
    (∀ e, o.classify img = Except.error e →
      (identify_dog_breed o img).2 =
        Except.error ("Failed to identify dog breed: " ++ e)) ∧
    (o.classify img = Except.ok none →
      (identify_dog_breed o img).2 =
        Except.error ("Failed to identify dog breed: " ++ noneContentError)) ∧
    (∀ c, o.classify img = Except.ok (some c) →
      (identify_dog_breed o img).2 = Except.ok (pyStrip c)) :=
  ⟨fun e h => by simp [identify_dog_breed, h],
   fun h => by simp [identify_dog_breed, h],
   fun c h => by simp [identify_dog_breed, h]⟩

/-- Oracle whose classifier response carries a null content. -/
def noneContentOracle : Oracle :=
  ⟨fun _ => Except.ok none,
   fun _ => Except.ok none,
   fun _ => Except.ok []⟩

/-- Witness for the amended claim C7 on the three response shapes:
raised call error, null content, and whitespace-padded text. -/
theorem C7_classify_contract_witness :
    (identify_dog_breed failingOracle [0]).2 =
      Except.error ("Failed to identify dog breed: " ++ "network down") ∧
    (identify_dog_breed noneContentOracle [0]).2 =
      Except.error ("Failed to identify dog breed: " ++ noneContentError) ∧
    (identify_dog_breed okOracle [0]).2 = Except.ok (pyStrip "Golden Retriever") :=
  ⟨(C7_classify_contract failingOracle [0]).1 "network down" rfl,
   (C7_classify_contract noneContentOracle [0]).2.1 rfl,
   (C7_classify_contract okOracle [0]).2.2 "Golden Retriever" rfl⟩

/-- Claim C8: validation accepts exactly the decodable uploads within
the 16MB size cap whose width and height lie between 256 and 4096;
every rejection carries a nonempty user-visible message, and a
rejected upload starts no background task and writes no progress
snapshot. -/
theorem C8_validate_iff_and_reject_inert (u : UploadFile) :
    (validate_image (some u) = (true, "") ↔
      u.size ≤ 16 * 1024 * 1024 ∧ ∃ img, u.decoded = some img ∧
        256 ≤ img.width ∧ img.width ≤ 4096 ∧ 256 ≤ img.height ∧ img.height ≤ 4096) ∧
    (∀ f, (validate_image f).1 = false → (validate_image f).2 ≠ "") ∧
    (∀ f tr uid, (validate_image f).1 = false → upload_request f tr uid = (tr, false)) := by
  refine ⟨?_, ?_, ?_⟩
  · rcases u with ⟨size, _ | ⟨w, ht, mode⟩⟩
    · by_cases h1 : size > 16 * 1024 * 1024 <;> simp [validate_image, h1]
    · simp only [validate_image]
      split_ifs with h1 h2 h3 <;> simp <;> omega
  · intro f h
    rcases f with _ | ⟨size, _ | img⟩
    · decide
    · simp only [validate_image] at h ⊢
      split_ifs at h ⊢ <;> decide
    · simp only [validate_image] at h ⊢
      split_ifs at h ⊢ <;> simp_all
  · intro f tr uid h
    simp [upload_request, h]

/-- Upload of a decodable 100 by 100 image, below the minimum
dimension bound. -/
def tinyUpload : UploadFile := ⟨1000, some ⟨100, 100, "RGB"⟩⟩

/-- Witness for claim C8: a 100 by 100 upload is rejected, and the
rejected request leaves the tracker unchanged and starts no task. -/
theorem C8_validate_iff_and_reject_inert_witness :
    (validate_image (some tinyUpload)).1 = false ∧
    upload_request (some tinyUpload) [] 1 = ([], false) :=
  ⟨by decide,
   (C8_validate_iff_and_reject_inert tinyUpload).2.2 (some tinyUpload) [] 1 (by decide)⟩

/-- Claim C9: reading progress never mutates the tracker: the route
returns the default unknown snapshot when no entry exists, stores
nothing, and repeated reads with no intervening write return equal
snapshots. -/
theorem C9_progress_read_pure (tracker : Tracker) (uid : Nat) :
    (progress_route tracker uid).2 = tracker ∧
    (tracker.lookup uid = none → (progress_route tracker uid).1 = defaultSnapshot) ∧
    (progress_route (progress_route tracker uid).2 uid).1 =
      (progress_route tracker uid).1 :=
  ⟨rfl, fun h => by simp [progress_route, h], rfl⟩

/-- Witness for claim C9 on the empty tracker. -/
theorem C9_progress_read_pure_witness :
    (([] : Tracker).lookup 1 = none) ∧
    (progress_route [] 1).2 = [] ∧
    (progress_route [] 1).1 = defaultSnapshot ∧
    (progress_route (progress_route [] 1).2 1).1 = (progress_route [] 1).1 :=
  ⟨rfl, (C9_progress_read_pure [] 1).1, (C9_progress_read_pure [] 1).2.1 rfl,
    (C9_progress_read_pure [] 1).2.2⟩

/-- The thumbnail box is respected: both result dimensions are at
most 1024. -/
theorem thumbnailDims_le (w h : Nat) :
    (thumbnailDims w h).1 ≤ 1024 ∧ (thumbnailDims w h).2 ≤ 1024 := by
  unfold thumbnailDims
  split_ifs with h1 h2
  · exact ⟨h1.1, h1.2⟩
  · have hh : 0 < h := by omega
    refine ⟨max_le (by omega) ?_, by simp⟩
    calc 1024 * w / h ≤ 1024 * h / h := Nat.div_le_div_right (by omega)
      _ = 1024 := Nat.mul_div_cancel _ hh
  · have hw : 0 < w := by omega
    refine ⟨by simp, max_le (by omega) ?_⟩
    calc 1024 * h / w ≤ 1024 * w / w := Nat.div_le_div_right (by omega)
      _ = 1024 := Nat.mul_div_cancel _ hw

/-- Counterexample to claim C10 as stated: a decodable grayscale (L
mode) upload is not re-encoded as RGB; its mode is preserved, because
the source converts only the RGBA, LA and P modes. -/
theorem C10_counterexample :
    (process_image_for_storage ⟨512, 512, "L"⟩).mode = "L" ∧
    (process_image_for_storage ⟨512, 512, "L"⟩).mode ≠ "RGB" := by
  constructor <;> decide

/-- Claim C10 (amended): every accepted upload is re-encoded rather
than stored verbatim: the staged image is saved as JPEG at quality
85, neither stored dimension exceeds 1024 even though uploads up to
4096 by 4096 are accepted, alpha and palette modes (RGBA, LA, P) are
converted to RGB (other modes keep their mode), and the record
persisted by a successful run stores exactly the staged bytes as its
original image. -/
theorem C10_storage_reencoding (img : PILImage) :
    (process_image_for_storage img).format = "JPEG" ∧
    (process_image_for_storage img).quality = 85 ∧
    (process_image_for_storage img).width ≤ 1024 ∧
    (process_image_for_storage img).height ≤ 1024 ∧
    ((img.mode = "RGBA" ∨ img.mode = "LA" ∨ img.mode = "P") →
      (process_image_for_storage img).mode = "RGB") ∧
    (∀ env uid bytes rec,
      (run_transformation env uid bytes).persisted = some rec →
      rec.original_image = bytes) := by
  refine ⟨rfl, rfl, ?_, ?_, ?_, ?_⟩
  · simp only [process_image_for_storage]
    split_ifs with h1
    · exact (thumbnailDims_le img.width img.height).1
    · simp only []
      omega
  · simp only [process_image_for_storage]
    split_ifs with h1
    · exact (thumbnailDims_le img.width img.height).2
    · simp only []
      omega
  · intro hm
    simp only [process_image_for_storage]
    rw [if_pos hm]
  · intro env uid bytes rec hrec
    by_cases hu : env.userExists
    · simp only [run_transformation, hu, if_true] at hrec
      rcases hp : (generate_dog_transformation env.oracle bytes).result with e | r
      · simp [hp] at hrec
      · rcases hcm : env.commit with e | tid
        · simp [hp, hcm] at hrec
        · simp [hp, hcm] at hrec
          rw [← hrec]
    · simp [run_transformation, hu] at hrec

/-- Witness for the amended claim C10: a 2048 by 1024 RGBA upload is
stored as RGB JPEG within the 1024 box, and the concrete successful
run persists the staged bytes as the record original image. -/
theorem C10_storage_reencoding_witness :
    (process_image_for_storage ⟨2048, 1024, "RGBA"⟩).format = "JPEG" ∧
    (process_image_for_storage ⟨2048, 1024, "RGBA"⟩).width ≤ 1024 ∧
    (process_image_for_storage ⟨2048, 1024, "RGBA"⟩).mode = "RGB" ∧
    successRecord.original_image = [0] :=
  ⟨(C10_storage_reencoding ⟨2048, 1024, "RGBA"⟩).1,
   (C10_storage_reencoding ⟨2048, 1024, "RGBA"⟩).2.2.1,
   (C10_storage_reencoding ⟨2048, 1024, "RGBA"⟩).2.2.2.2.1 (Or.inl rfl),
   (C10_storage_reencoding ⟨2048, 1024, "RGBA"⟩).2.2.2.2.2 envSuccess 1 [0] successRecord
     (by rw [envSuccess_run_eq])⟩

end ShaggyDog
